import Mathlib

/-! Shallow embedding of src/sampler_logic.py (the live, non-commented revision):
the selection engine run_selection together with its database helpers
get_previously_selected_policies, log_attempt, save_selected_apps and the
UPDATE selection_log fix-up run on a save failure. Floats are modelled as
rationals, the SQLite store as in-memory lists, the random source as an
injected stream of draws, and the two fallible durable writes as explicit
success flags. -/

namespace SamplerLogic

/-- One raw input record: the REQUIRED_INPUT_COLUMNS of an input DataFrame row. -/
structure Row where
  id : String
  protected_class : String
  xml_blob : String
  application_receive_date : String
  advisor_id : String
  branch_name : String
deriving DecidableEq

/-- Python str.strip: drop leading and trailing whitespace. -/
def strip (s : String) : String :=
  String.mk (((s.data.dropWhile Char.isWhitespace).reverse.dropWhile Char.isWhitespace).reverse)

/-- Python str.lower, on the ASCII range exercised by the flag tokens. -/
def lower (s : String) : String :=
  String.mk (s.data.map Char.toLower)

/-- The astype(str).str.strip() normalization applied to the five string columns;
xml_blob is only astype(str) and is left as is. -/
def strip_row (r : Row) : Row :=
  { r with
    id := strip r.id
    protected_class := strip r.protected_class
    application_receive_date := strip r.application_receive_date
    advisor_id := strip r.advisor_id
    branch_name := strip r.branch_name }

/-- flag_map of the validator, looked up on the lowercased token; a key that is
absent yields pandas NaN, modelled as none. -/
def flag_map (s : String) : Option Nat :=
  if s = "true" ∨ s = "1" ∨ s = "yes" ∨ s = "t" then some 1
  else if s = "false" ∨ s = "0" ∨ s = "no" ∨ s = "f" ∨ s = "" then some 0
  else none

/-- protected_class_numeric: protected_class.str.lower().map(flag_map).fillna(0).astype(int). -/
def protected_numeric (r : Row) : Nat :=
  (flag_map (lower r.protected_class)).getD 0

/-- A parsed calendar timestamp, normalized to a date. -/
structure Date where
  year : Nat
  month : Nat
  day : Nat
deriving DecidableEq

/-- Strict calendar order on dates. -/
def date_lt (a b : Date) : Bool :=
  decide (a.year < b.year) ||
    (decide (a.year = b.year) &&
      (decide (a.month < b.month) ||
        (decide (a.month = b.month) && decide (a.day < b.day))))

def min_allowed_date : Date := ⟨2000, 1, 1⟩

/-- Split a character list on the dash separator. -/
def split_on_dash : List Char → List (List Char)
  | [] => [[]]
  | c :: rest =>
    if c = '-' then [] :: split_on_dash rest
    else
      match split_on_dash rest with
      | [] => [[c]]
      | g :: gs => (c :: g) :: gs

def parse_digits_aux (acc : Nat) : List Char → Option Nat
  | [] => some acc
  | c :: rest => if c.isDigit then parse_digits_aux (10 * acc + (c.toNat - 48)) rest else none

def parse_digits (cs : List Char) : Option Nat :=
  if cs.isEmpty then none else parse_digits_aux 0 cs

/-- Models pd.to_datetime(col, errors=coerce) on the canonical YYYY-MM-DD
serialization this pipeline stores: three dash-separated decimal fields with a
month in 1..12 and a day in 1..31 parse to a Date; anything else is NaT (none). -/
def parse_date (s : String) : Option Date :=
  match (split_on_dash s.data).map parse_digits with
  | [some y, some m, some d] =>
    if 1 ≤ m ∧ m ≤ 12 ∧ 1 ≤ d ∧ d ≤ 31 then some ⟨y, m, d⟩ else none
  | _ => none

def pad2 (n : Nat) : String := if n < 10 then "0" ++ toString n else toString n

def pad4 (n : Nat) : String :=
  if n < 10 then "000" ++ toString n
  else if n < 100 then "00" ++ toString n
  else if n < 1000 then "0" ++ toString n
  else toString n

/-- strftime of a parsed date back to YYYY-MM-DD. -/
def format_date (d : Date) : String :=
  pad4 d.year ++ "-" ++ pad2 d.month ++ "-" ++ pad2 d.day

/-- The in-validation date normalization: parsed dates are reformatted to
YYYY-MM-DD, unparseable or empty ones become the empty string. -/
def normalize_date_field (r : Row) : Row :=
  { r with application_receive_date :=
      match parse_date r.application_receive_date with
      | some d => format_date d
      | none => "" }

/-- Ids flagged by pandas duplicated(): every occurrence with an earlier equal one. -/
def duplicated_ids_aux (seen : List String) : List String → List String
  | [] => []
  | i :: rest =>
    if i ∈ seen then i :: duplicated_ids_aux (i :: seen) rest
    else duplicated_ids_aux (i :: seen) rest

/-- unique(): first-occurrence-order deduplication. -/
def dedup_first (l : List String) : List String :=
  l.foldl (fun acc i => if i ∈ acc then acc else acc ++ [i]) []

def empty_id_errors (rows : List Row) : List String :=
  if rows.any (fun r => r.id == "") then ["Empty \x27id\x27 found."] else []

def duplicate_id_errors (rows : List Row) : List String :=
  if (duplicated_ids_aux [] (rows.map Row.id)).isEmpty then []
  else ["Duplicate id(s) in input: " ++
        String.intercalate ", " (dedup_first (duplicated_ids_aux [] (rows.map Row.id)))]

/-- The isin([0, 1]) check on the already fillna(0)-normalized numeric column. -/
def protected_class_errors (rows : List Row) : List String :=
  if rows.any (fun r => !(protected_numeric r == 0 || protected_numeric r == 1)) then
    ["Invalid \x27protected_class\x27 values (must be 0 or 1 after conversion)."]
  else []

def unparseable_date (r : Row) : Bool :=
  (parse_date r.application_receive_date).isNone && !(r.application_receive_date == "")

def unparseable_date_errors (rows : List Row) : List String :=
  if 0 < (rows.filter unparseable_date).length then
    ["Unparseable \x27application_receive_date\x27: " ++
      toString (rows.filter unparseable_date).length ++ " rows."]
  else []

def future_date (today : Date) (r : Row) : Bool :=
  match parse_date r.application_receive_date with
  | some d => date_lt today d
  | none => false

def future_date_errors (today : Date) (rows : List Row) : List String :=
  if rows.any (future_date today) then ["Future \x27application_receive_date\x27 found."] else []

def before_min_date (r : Row) : Bool :=
  match parse_date r.application_receive_date with
  | some d => date_lt d min_allowed_date
  | none => false

def min_date_errors (rows : List Row) : List String :=
  if rows.any before_min_date then
    ["\x27application_receive_date\x27 before 2000-01-01 found."]
  else []

/-- All checks run before any raise; their findings accumulate in code order. -/
def validation_errors (today : Date) (rows : List Row) : List String :=
  empty_id_errors rows ++ duplicate_id_errors rows ++ protected_class_errors rows ++
    unparseable_date_errors rows ++ future_date_errors today rows ++ min_date_errors rows

/-- The single aggregated ValueError message raised when any check found something. -/
def aggregate_error (errs : List String) : String :=
  "Input data validation failed:\n- " ++ String.intercalate "\n- " errs

/-- The cap-at-1, floor-at-0 edge policy applied to the raw quotient. -/
def clamp01 (q : ℚ) : ℚ := if 1 < q then 1 else if q < 0 then 0 else q

/-- derived_probability_for_unprotected = target_overall_rate / estimated_unprotected_ratio,
then capped at 1.0 if above 1.0, set to 0.0 if negative. -/
def derived_probability (target_overall_rate est_unprotected : ℚ) : ℚ :=
  clamp01 (target_overall_rate / est_unprotected)

/-- The mutable locals of the per-policy selection loop. -/
structure LoopState where
  chosen : List Row
  history : List String
  drawIdx : Nat
  nProtected : Nat
  nHistorical : Nat
  nGate : Nat
  nSelected : Nat
deriving DecidableEq

/-- One iteration of the per-policy loop: protected check, then historical check,
then a probability draw, consumed only when the derived probability is positive;
a selected id is immediately added to the working history set. -/
def select_step (prob : ℚ) (draws : Nat → ℚ) (st : LoopState) (r : Row) : LoopState :=
  if protected_numeric r = 1 then
    { st with nProtected := st.nProtected + 1 }
  else if r.id ∈ st.history then
    { st with nHistorical := st.nHistorical + 1 }
  else if 0 < prob then
    if draws st.drawIdx < prob then
      { st with
        chosen := st.chosen ++ [r]
        history := r.id :: st.history
        drawIdx := st.drawIdx + 1
        nGate := st.nGate + 1
        nSelected := st.nSelected + 1 }
    else { st with drawIdx := st.drawIdx + 1 }
  else st

def init_state (history : List String) : LoopState :=
  { chosen := [], history := history, drawIdx := 0,
    nProtected := 0, nHistorical := 0, nGate := 0, nSelected := 0 }

def select_loop (prob : ℚ) (draws : Nat → ℚ) (history : List String) (rows : List Row) :
    LoopState :=
  rows.foldl (select_step prob draws) (init_state history)

inductive Status where
  | SUCCESS
  | ERROR
deriving DecidableEq

/-- One selection_log table row; the timestamp is omitted and log_id is the
autoincrement rowid, modelled as position in the list plus one. -/
structure Attempt where
  batch_id : String
  status : Status
  message : String
  selected_count : Nat
  total_in_pool : Nat
  frame_used : ℚ
deriving DecidableEq

/-- One selected_applications table row; the autoincrement key is omitted. -/
structure SelectedApp where
  selection_log_id : Nat
  policy_id : String
  advisor_id : String
  application_receive_date : String
deriving DecidableEq

/-- The durable SQLite state: both tables, as append-ordered lists. -/
structure Store where
  selection_log : List Attempt
  selected_applications : List SelectedApp
deriving DecidableEq

def Store.empty : Store := ⟨[], []⟩

/-- get_previously_selected_policies: every policy_id in selected_applications. -/
def previously_selected (store : Store) : List String :=
  store.selected_applications.map SelectedApp.policy_id

/-- log_attempt: INSERT one selection_log row and return its autoincrement log_id;
a failing write (logOk = false) is caught inside log_attempt, which then returns
None with no row written. -/
def log_attempt (logOk : Bool) (store : Store) (a : Attempt) : Store × Option Nat :=
  if logOk then
    ({ store with selection_log := store.selection_log ++ [a] },
      some (store.selection_log.length + 1))
  else (store, none)

/-- The row mapping of save_selected_apps: id becomes policy_id and the rows are
tagged with the owning selection_log_id. -/
def row_to_selected (log_id : Nat) (r : Row) : SelectedApp :=
  { selection_log_id := log_id, policy_id := r.id,
    advisor_id := r.advisor_id, application_receive_date := r.application_receive_date }

/-- save_selected_apps: an empty input skips the write and reports success;
otherwise one transactional append which either fully applies (persistOk = true)
or raises, leaving the table unchanged (persistOk = false, e.g. an
IntegrityError on the UNIQUE policy_id index). -/
def save_selected_apps (persistOk : Bool) (store : Store) (rows : List Row) (log_id : Nat) :
    Store × Bool :=
  if rows.isEmpty then (store, true)
  else if persistOk then
    ({ store with selected_applications :=
        store.selected_applications ++ rows.map (row_to_selected log_id) }, true)
  else (store, false)

/-- UPDATE selection_log SET status = ?, message = ? WHERE log_id = ?, with 1-based ids. -/
def update_by_id (log_id : Nat) (status : Status) (message : String) :
    Nat → List Attempt → List Attempt
  | _, [] => []
  | i, a :: rest =>
    (if i = log_id then { a with status := status, message := message } else a) ::
      update_by_id log_id status message (i + 1) rest

def update_log (store : Store) (log_id : Nat) (status : Status) (message : String) : Store :=
  { store with selection_log := update_by_id log_id status message 1 store.selection_log }

/-- The outcome of the try block of run_selection: final status, message, the
counters, and the selected rows awaiting persistence. -/
structure TryOutcome where
  status : Status
  message : String
  num_input_records : Nat
  chosen : List Row
  nProtected : Nat
  nHistorical : Nat
  nGate : Nat
  nSelected : Nat
deriving DecidableEq

def success_message (n k p h g : Nat) : String :=
  "Processed " ++ toString n ++ " records. Selected for this batch: " ++ toString k ++
    ". Skipped (protected): " ++ toString p ++ ". Skipped (already in DB): " ++ toString h ++
    ". Passed derived probability gate (and selected): " ++ toString g ++ "."

/-- The try block of run_selection: the empty-input guard, the ratio guard, the
probability derivation, normalization, validation and the selection loop, in
code order. Every raised ValueError is recovered into an ERROR outcome carrying
the exception text as message, with the counters frozen at the raise point.
A structurally missing column cannot occur in the typed Row embedding, so the
missing-columns raise has no model. -/
def try_phase (today : Date) (draws : Nat → ℚ) (input : List Row)
    (target_overall_rate est_unprotected : ℚ) (store : Store) : TryOutcome :=
  let history := previously_selected store
  if input.isEmpty then
    { status := Status.ERROR, message := "Input data must be a non-empty pandas DataFrame.",
      num_input_records := 0, chosen := [],
      nProtected := 0, nHistorical := 0, nGate := 0, nSelected := 0 }
  else if ¬ (0 < est_unprotected ∧ est_unprotected ≤ 1) then
    { status := Status.ERROR, message := "Estimated unprotected ratio must be > 0 and <= 1.",
      num_input_records := input.length, chosen := [],
      nProtected := 0, nHistorical := 0, nGate := 0, nSelected := 0 }
  else
    let prob := derived_probability target_overall_rate est_unprotected
    let stripped := input.map strip_row
    let errs := validation_errors today stripped
    if errs.isEmpty then
      let rows := stripped.map normalize_date_field
      let st := select_loop prob draws history rows
      { status := Status.SUCCESS,
        message := success_message input.length st.nSelected st.nProtected st.nHistorical st.nGate,
        num_input_records := input.length, chosen := st.chosen,
        nProtected := st.nProtected, nHistorical := st.nHistorical,
        nGate := st.nGate, nSelected := st.nSelected }
    else
      { status := Status.ERROR, message := aggregate_error errs,
        num_input_records := input.length, chosen := [],
        nProtected := 0, nHistorical := 0, nGate := 0, nSelected := 0 }

/-- The selection_log row assembled by the finally block of run_selection. -/
def logged_attempt (out : TryOutcome) (batch_id : String) (est_unprotected : ℚ) : Attempt :=
  { batch_id := batch_id, status := out.status, message := out.message,
    selected_count := out.nSelected, total_in_pool := out.num_input_records,
    frame_used := est_unprotected }

/-- The message run_selection installs when save_selected_apps raises. -/
def persist_fail_message (persistErr : String) : String :=
  "Failed to save apps: " ++ persistErr

/-- The result of run_selection: the durable state and the returned boolean,
which is log_id is not None. -/
structure RunResult where
  store : Store
  returned : Bool
deriving DecidableEq

/-- run_selection: the try block, then the finally block: the attempt is always
handed to log_attempt; on a SUCCESS outcome with selections and a live log_id,
save_selected_apps runs, and if it raises, the already-written log row is
downgraded to ERROR with the persistence failure message (the UPDATE itself can
also fail, modelled by updateOk). The IntegrityError and generic branches of the
except differ only in message text, collapsed here into persist_fail_message. -/
def run_selection (today : Date) (draws : Nat → ℚ) (logOk persistOk updateOk : Bool)
    (persistErr : String) (input : List Row) (batch_id : String)
    (target_overall_rate est_unprotected : ℚ) (store : Store) : RunResult :=
  let out := try_phase today draws input target_overall_rate est_unprotected store
  let logRes := log_attempt logOk store (logged_attempt out batch_id est_unprotected)
  match logRes.2 with
  | none => ⟨logRes.1, false⟩
  | some lid =>
    if out.status = Status.SUCCESS ∧ 0 < out.nSelected then
      let saveRes := save_selected_apps persistOk logRes.1 out.chosen lid
      if saveRes.2 then ⟨saveRes.1, true⟩
      else if updateOk then
        ⟨update_log saveRes.1 lid Status.ERROR (persist_fail_message persistErr), true⟩
      else ⟨saveRes.1, true⟩
    else ⟨logRes.1, true⟩

/-- The parameters of one invocation of run_selection. -/
structure RunSpec where
  today : Date
  draws : Nat → ℚ
  logOk : Bool
  persistOk : Bool
  updateOk : Bool
  persistErr : String
  input : List Row
  batch_id : String
  target_overall_rate : ℚ
  est_unprotected : ℚ

/-- A sequence of invocations of run_selection against the same store. -/
def run_many (specs : List RunSpec) (store : Store) : Store :=
  specs.foldl
    (fun s sp =>
      (run_selection sp.today sp.draws sp.logOk sp.persistOk sp.updateOk sp.persistErr
        sp.input sp.batch_id sp.target_overall_rate sp.est_unprotected s).store)
    store

/-- A fixed run date for concrete evaluations. -/
def today0 : Date := ⟨2025, 1, 1⟩

/-- A deterministic random source whose every draw is 0. -/
def draws0 : Nat → ℚ := fun _ => 0

/-- A well-formed candidate record. -/
def sampleRow : Row := ⟨"a", "0", "x", "2020-01-05", "adv", "br"⟩

/-- A candidate record whose protected_class token is outside the flag_map lookup. -/
def badTokenRow : Row := ⟨"b", "maybe", "x", "2020-01-05", "adv", "br"⟩

/-- A record violating the non-empty id rule. -/
def vRow1 : Row := ⟨"", "0", "x", "", "a", "b"⟩

/-- A well-formed record whose id is duplicated by vRow3. -/
def vRow2 : Row := ⟨"d", "0", "x", "", "a", "b"⟩

/-- A record duplicating the id of vRow2 and carrying an unparseable date. -/
def vRow3 : Row := ⟨"d", "0", "x", "garbage", "a", "b"⟩

/-- A batch carrying three independent validation violations. -/
def vBatch : List Row := [vRow1, vRow2, vRow3]

/-- The selection-loop invariant: chosen ids are distinct, live in the working
history, and avoid the initial history h0, which the working history extends;
the chosen count tracks the selected counter and no chosen row is protected. -/
def GoodState (h0 : List String) (st : LoopState) : Prop :=
  (st.chosen.map Row.id).Nodup ∧
  (∀ i ∈ st.chosen.map Row.id, i ∈ st.history) ∧
  (∀ i ∈ h0, i ∈ st.history) ∧
  (∀ i ∈ st.chosen.map Row.id, i ∉ h0) ∧
  st.chosen.length = st.nSelected ∧
  (∀ r ∈ st.chosen, protected_numeric r ≠ 1)

theorem select_step_good (prob : ℚ) (draws : Nat → ℚ) (h0 : List String) (st : LoopState)
    (r : Row) (hg : GoodState h0 st) : GoodState h0 (select_step prob draws st r) := by
  obtain ⟨h1, h2, h3, h4, h5, h6⟩ := hg
  unfold select_step
  split_ifs with hp hh hpr hd
  · exact ⟨h1, h2, h3, h4, h5, h6⟩
  · exact ⟨h1, h2, h3, h4, h5, h6⟩
  · have hnotin : r.id ∉ st.chosen.map Row.id := fun hmem => hh (h2 _ hmem)
    refine ⟨?_, ?_, ?_, ?_, ?_, ?_⟩
    · rw [List.map_append, List.nodup_append]
      refine ⟨h1, by simp, ?_⟩
      intro a ha hb
      simp only [List.map_cons, List.map_nil, List.mem_singleton] at hb
      subst hb
      exact hnotin ha
    · intro i hi
      simp only [List.map_append, List.map_cons, List.map_nil, List.mem_append,
        List.mem_singleton] at hi
      rcases hi with hi | hi
      · exact List.mem_cons_of_mem _ (h2 _ hi)
      · subst hi; exact List.mem_cons_self _ _
    · intro i hi
      exact List.mem_cons_of_mem _ (h3 _ hi)
    · intro i hi
      simp only [List.map_append, List.map_cons, List.map_nil, List.mem_append,
        List.mem_singleton] at hi
      rcases hi with hi | hi
      · exact h4 _ hi
      · subst hi; exact fun hin => hh (h3 _ hin)
    · simpa using h5
    · intro x hx
      simp only [List.mem_append, List.mem_singleton] at hx
      rcases hx with hx | hx
      · exact h6 _ hx
      · subst hx; exact hp
  · exact ⟨h1, h2, h3, h4, h5, h6⟩
  · exact ⟨h1, h2, h3, h4, h5, h6⟩

theorem foldl_good (prob : ℚ) (draws : Nat → ℚ) (h0 : List String) (rows : List Row) :
    ∀ st : LoopState, GoodState h0 st →
      GoodState h0 (rows.foldl (select_step prob draws) st) := by
  induction rows with
  | nil => intro st hg; simpa using hg
  | cons r rest ih =>
    intro st hg
    simpa using ih _ (select_step_good prob draws h0 st r hg)

theorem init_good (history : List String) : GoodState history (init_state history) := by
  refine ⟨?_, ?_, ?_, ?_, ?_, ?_⟩ <;> simp [init_state]

theorem try_phase_empty (today : Date) (draws : Nat → ℚ) (input : List Row) (tr er : ℚ)
    (store : Store) (he : input.isEmpty) :
    try_phase today draws input tr er store =
      { status := Status.ERROR, message := "Input data must be a non-empty pandas DataFrame.",
        num_input_records := 0, chosen := [],
        nProtected := 0, nHistorical := 0, nGate := 0, nSelected := 0 } := by
  simp [try_phase, he]

theorem try_phase_bad_ratio (today : Date) (draws : Nat → ℚ) (input : List Row) (tr er : ℚ)
    (store : Store) (he : ¬ input.isEmpty) (hr : ¬ (0 < er ∧ er ≤ 1)) :
    try_phase today draws input tr er store =
      { status := Status.ERROR, message := "Estimated unprotected ratio must be > 0 and <= 1.",
        num_input_records := input.length, chosen := [],
        nProtected := 0, nHistorical := 0, nGate := 0, nSelected := 0 } := by
  simp [try_phase, he, hr]

theorem try_phase_invalid (today : Date) (draws : Nat → ℚ) (input : List Row) (tr er : ℚ)
    (store : Store) (he : ¬ input.isEmpty) (hr : 0 < er ∧ er ≤ 1)
    (hv : validation_errors today (input.map strip_row) ≠ []) :
    try_phase today draws input tr er store =
      { status := Status.ERROR,
        message := aggregate_error (validation_errors today (input.map strip_row)),
        num_input_records := input.length, chosen := [],
        nProtected := 0, nHistorical := 0, nGate := 0, nSelected := 0 } := by
  simp [try_phase, he, hr.1, hr.2, hv]

theorem try_phase_valid (today : Date) (draws : Nat → ℚ) (input : List Row) (tr er : ℚ)
    (store : Store) (he : ¬ input.isEmpty) (hr : 0 < er ∧ er ≤ 1)
    (hv : validation_errors today (input.map strip_row) = []) :
    try_phase today draws input tr er store =
      (let st := select_loop (derived_probability tr er) draws (previously_selected store)
        ((input.map strip_row).map normalize_date_field)
       { status := Status.SUCCESS,
         message := success_message input.length st.nSelected st.nProtected st.nHistorical st.nGate,
         num_input_records := input.length, chosen := st.chosen,
         nProtected := st.nProtected, nHistorical := st.nHistorical,
         nGate := st.nGate, nSelected := st.nSelected }) := by
  simp [try_phase, he, hr.1, hr.2, hv]

/-- The facts about the try block used downstream: the rows it hands to
persistence have pairwise distinct ids, none already in the history read at the
start of the run, their count is the selected counter, and none is protected. -/
theorem try_phase_good (today : Date) (draws : Nat → ℚ) (input : List Row) (tr er : ℚ)
    (store : Store) :
    ((try_phase today draws input tr er store).chosen.map Row.id).Nodup ∧
    (∀ i ∈ (try_phase today draws input tr er store).chosen.map Row.id,
      i ∉ previously_selected store) ∧
    (try_phase today draws input tr er store).chosen.length =
      (try_phase today draws input tr er store).nSelected ∧
    (∀ r ∈ (try_phase today draws input tr er store).chosen, protected_numeric r ≠ 1) := by
  by_cases he : input.isEmpty
  · rw [try_phase_empty today draws input tr er store he]; simp
  · by_cases hr : 0 < er ∧ er ≤ 1
    · by_cases hv : validation_errors today (input.map strip_row) = []
      · rw [try_phase_valid today draws input tr er store he hr hv]
        obtain ⟨g1, g2, g3, g4, g5, g6⟩ :=
          foldl_good (derived_probability tr er) draws (previously_selected store)
            ((input.map strip_row).map normalize_date_field)
            (init_state (previously_selected store)) (init_good _)
        exact ⟨g1, g4, g5, g6⟩
      · rw [try_phase_invalid today draws input tr er store he hr hv]; simp
    · rw [try_phase_bad_ratio today draws input tr er store he hr]; simp

theorem update_by_id_preserved (st : Status) (m : String) (a : Attempt) :
    ∀ (l : List Attempt) (i : Nat),
      update_by_id (i + l.length) st m i (l ++ [a]) =
        l ++ [{ a with status := st, message := m }] := by
  intro l
  induction l with
  | nil => intro i; simp [update_by_id]
  | cons b t ih =>
    intro i
    simp only [List.cons_append, update_by_id, List.length_cons, List.append_eq]
    rw [if_neg (by omega : ¬ i = i + (t.length + 1)),
      (by omega : i + (t.length + 1) = i + 1 + t.length), ih (i + 1)]

theorem update_log_appended (l : List Attempt) (sel : List SelectedApp) (a : Attempt)
    (st : Status) (m : String) :
    update_log ⟨l ++ [a], sel⟩ (l.length + 1) st m =
      ⟨l ++ [{ a with status := st, message := m }], sel⟩ := by
  have h := update_by_id_preserved st m a l 1
  rw [Nat.add_comm 1 l.length] at h
  simp [update_log, h]

theorem run_selection_logFail (today : Date) (draws : Nat → ℚ) (persistOk updateOk : Bool)
    (persistErr : String) (input : List Row) (batch_id : String) (tr er : ℚ) (store : Store) :
    run_selection today draws false persistOk updateOk persistErr input batch_id tr er store =
      ⟨store, false⟩ := by
  simp [run_selection, log_attempt]

theorem run_selection_noSave (today : Date) (draws : Nat → ℚ) (persistOk updateOk : Bool)
    (persistErr : String) (input : List Row) (batch_id : String) (tr er : ℚ) (store : Store)
    (hg : ¬ ((try_phase today draws input tr er store).status = Status.SUCCESS ∧
      0 < (try_phase today draws input tr er store).nSelected)) :
    run_selection today draws true persistOk updateOk persistErr input batch_id tr er store =
      ⟨⟨store.selection_log ++
          [logged_attempt (try_phase today draws input tr er store) batch_id er],
        store.selected_applications⟩, true⟩ := by
  simp [run_selection, log_attempt, hg]

theorem run_selection_saveOk (today : Date) (draws : Nat → ℚ) (updateOk : Bool)
    (persistErr : String) (input : List Row) (batch_id : String) (tr er : ℚ) (store : Store)
    (hg : (try_phase today draws input tr er store).status = Status.SUCCESS ∧
      0 < (try_phase today draws input tr er store).nSelected) :
    run_selection today draws true true updateOk persistErr input batch_id tr er store =
      ⟨⟨store.selection_log ++
          [logged_attempt (try_phase today draws input tr er store) batch_id er],
        store.selected_applications ++
          (try_phase today draws input tr er store).chosen.map
            (row_to_selected (store.selection_log.length + 1))⟩, true⟩ := by
  by_cases hc : (try_phase today draws input tr er store).chosen.isEmpty
  · have hc' : (try_phase today draws input tr er store).chosen = [] :=
      List.isEmpty_iff.mp hc
    simp [run_selection, log_attempt, save_selected_apps, hg, hc']
  · simp [run_selection, log_attempt, save_selected_apps, hg, hc]

theorem run_selection_saveFail_update (today : Date) (draws : Nat → ℚ)
    (persistErr : String) (input : List Row) (batch_id : String) (tr er : ℚ) (store : Store)
    (hg : (try_phase today draws input tr er store).status = Status.SUCCESS ∧
      0 < (try_phase today draws input tr er store).nSelected)
    (hc : ¬ (try_phase today draws input tr er store).chosen.isEmpty) :
    run_selection today draws true false true persistErr input batch_id tr er store =
      ⟨⟨store.selection_log ++
          [{ logged_attempt (try_phase today draws input tr er store) batch_id er with
              status := Status.ERROR, message := persist_fail_message persistErr }],
        store.selected_applications⟩, true⟩ := by
  have h := update_log_appended store.selection_log store.selected_applications
    (logged_attempt (try_phase today draws input tr er store) batch_id er)
    Status.ERROR (persist_fail_message persistErr)
  simp [run_selection, log_attempt, save_selected_apps, hg, hc, h]

theorem run_selection_saveFail_noUpdate (today : Date) (draws : Nat → ℚ)
    (persistErr : String) (input : List Row) (batch_id : String) (tr er : ℚ) (store : Store)
    (hg : (try_phase today draws input tr er store).status = Status.SUCCESS ∧
      0 < (try_phase today draws input tr er store).nSelected)
    (hc : ¬ (try_phase today draws input tr er store).chosen.isEmpty) :
    run_selection today draws true false false persistErr input batch_id tr er store =
      ⟨⟨store.selection_log ++
          [logged_attempt (try_phase today draws input tr er store) batch_id er],
        store.selected_applications⟩, true⟩ := by
  simp [run_selection, log_attempt, save_selected_apps, hg, hc]

theorem run_selection_saveEmpty (today : Date) (draws : Nat → ℚ) (persistOk updateOk : Bool)
    (persistErr : String) (input : List Row) (batch_id : String) (tr er : ℚ) (store : Store)
    (hg : (try_phase today draws input tr er store).status = Status.SUCCESS ∧
      0 < (try_phase today draws input tr er store).nSelected)
    (hc : (try_phase today draws input tr er store).chosen.isEmpty) :
    run_selection today draws true persistOk updateOk persistErr input batch_id tr er store =
      ⟨⟨store.selection_log ++
          [logged_attempt (try_phase today draws input tr er store) batch_id er],
        store.selected_applications⟩, true⟩ := by
  have hc' : (try_phase today draws input tr er store).chosen = [] := List.isEmpty_iff.mp hc
  simp [run_selection, log_attempt, save_selected_apps, hg, hc']

theorem run_selection_returned_eq (today : Date) (draws : Nat → ℚ)
    (logOk persistOk updateOk : Bool) (persistErr : String) (input : List Row)
    (batch_id : String) (tr er : ℚ) (store : Store) :
    (run_selection today draws logOk persistOk updateOk persistErr
      input batch_id tr er store).returned = logOk := by
  cases logOk
  · rw [run_selection_logFail]
  · by_cases hg : (try_phase today draws input tr er store).status = Status.SUCCESS ∧
        0 < (try_phase today draws input tr er store).nSelected
    · by_cases hc : (try_phase today draws input tr er store).chosen.isEmpty
      · rw [run_selection_saveEmpty today draws persistOk updateOk persistErr input batch_id
          tr er store hg hc]
      · cases persistOk
        · cases updateOk
          · rw [run_selection_saveFail_noUpdate today draws persistErr input batch_id tr er
              store hg hc]
          · rw [run_selection_saveFail_update today draws persistErr input batch_id tr er
              store hg hc]
        · rw [run_selection_saveOk today draws updateOk persistErr input batch_id tr er
            store hg]
    · rw [run_selection_noSave today draws persistOk updateOk persistErr input batch_id
        tr er store hg]

theorem run_preserves_nodup (today : Date) (draws : Nat → ℚ)
    (logOk persistOk updateOk : Bool) (persistErr : String) (input : List Row)
    (batch_id : String) (tr er : ℚ) (store : Store)
    (h : (previously_selected store).Nodup) :
    (previously_selected (run_selection today draws logOk persistOk updateOk persistErr
      input batch_id tr er store).store).Nodup := by
  obtain ⟨g1, g2, g3, g4⟩ := try_phase_good today draws input tr er store
  cases logOk
  · rw [run_selection_logFail]; exact h
  · by_cases hg : (try_phase today draws input tr er store).status = Status.SUCCESS ∧
        0 < (try_phase today draws input tr er store).nSelected
    · have hc : ¬ (try_phase today draws input tr er store).chosen.isEmpty := by
        have hlen := g3
        intro hemp
        rw [List.isEmpty_iff.mp hemp] at hlen
        simp only [List.length_nil] at hlen
        have h2 := hg.2
        omega
      cases persistOk
      · cases updateOk
        · rw [run_selection_saveFail_noUpdate today draws persistErr input batch_id tr er
            store hg hc]
          exact h
        · rw [run_selection_saveFail_update today draws persistErr input batch_id tr er
            store hg hc]
          exact h
      · rw [run_selection_saveOk today draws updateOk persistErr input batch_id tr er
          store hg]
        simp only [previously_selected, List.map_append, List.map_map]
        rw [List.nodup_append]
        refine ⟨h, ?_, ?_⟩
        · have : (SelectedApp.policy_id ∘ row_to_selected (store.selection_log.length + 1)) =
              Row.id := rfl
          rw [this]
          exact g1
        · intro a ha hb
          simp only [List.mem_map, Function.comp_apply] at hb
          obtain ⟨r, hr, hrid⟩ := hb
          have : a ∈ (try_phase today draws input tr er store).chosen.map Row.id := by
            subst hrid
            exact List.mem_map_of_mem Row.id hr
          exact g2 _ this ha
    · rw [run_selection_noSave today draws persistOk updateOk persistErr input batch_id
        tr er store hg]
      exact h

theorem clamp01_mono {a b : ℚ} (hab : a ≤ b) : clamp01 a ≤ clamp01 b := by
  unfold clamp01
  split_ifs <;> linarith

theorem clamp01_mem (q : ℚ) : 0 ≤ clamp01 q ∧ clamp01 q ≤ 1 := by
  unfold clamp01
  split_ifs <;> constructor <;> linarith

theorem clamp01_of_neg {q : ℚ} (h : q < 0) : clamp01 q = 0 := by
  unfold clamp01
  split_ifs <;> first | linarith | rfl

theorem duplicated_ids_aux_eq_nil (l : List String) :
    ∀ seen : List String, duplicated_ids_aux seen l = [] ↔
      l.Nodup ∧ ∀ i ∈ l, i ∉ seen := by
  induction l with
  | nil => intro seen; simp [duplicated_ids_aux]
  | cons i rest ih =>
    intro seen
    simp only [duplicated_ids_aux]
    by_cases hm : i ∈ seen
    · rw [if_pos hm]
      constructor
      · intro hfalse
        exact (List.cons_ne_nil _ _ hfalse).elim
      · rintro ⟨-, hall⟩
        exact absurd hm (hall i (List.mem_cons_self i rest))
    · rw [if_neg hm, ih (i :: seen)]
      simp only [List.nodup_cons, List.mem_cons, not_or]
      constructor
      · rintro ⟨hnd, hall⟩
        refine ⟨⟨fun hi => (hall i hi).1 rfl, hnd⟩, fun j hj => ?_⟩
        rcases hj with rfl | hj
        · exact hm
        · exact (hall j hj).2
      · rintro ⟨⟨hir, hnd⟩, hall⟩
        refine ⟨hnd, fun j hj => ⟨fun hji => ?_, hall j (Or.inr hj)⟩⟩
        subst hji
        exact hir hj

/-- C1: across every sequence of runs of run_selection against the same store,
the persisted Selected Record ids contain no duplicates: ids in the history set
read at the start of a run are skipped before any draw, and each selected id is
immediately added to the working history set, so no id is selected twice,
neither within one run nor across runs. -/
theorem no_reselection_across_runs (specs : List RunSpec) :
    (previously_selected (run_many specs Store.empty)).Nodup := by
  have main : ∀ (l : List RunSpec) (store : Store), (previously_selected store).Nodup →
      (previously_selected (run_many l store)).Nodup := by
    intro l
    induction l with
    | nil => intro store h; simpa [run_many] using h
    | cons sp t ih =>
      intro store h
      have h1 := run_preserves_nodup sp.today sp.draws sp.logOk sp.persistOk sp.updateOk
        sp.persistErr sp.input sp.batch_id sp.target_overall_rate sp.est_unprotected store h
      have hstep : run_many (sp :: t) store =
          run_many t ((run_selection sp.today sp.draws sp.logOk sp.persistOk sp.updateOk
            sp.persistErr sp.input sp.batch_id sp.target_overall_rate
            sp.est_unprotected store).store) := by
        simp [run_many]
      rw [hstep]
      exact ih _ h1
  exact main specs Store.empty (by simp [previously_selected, Store.empty])

/-- C2: in every validated batch, no record whose normalized protected_class
value is 1 ever appears in the selected output of the selection engine:
protected records are skipped before the history check and before any draw. -/
theorem protected_never_selected (today : Date) (draws : Nat → ℚ) (input : List Row)
    (tr er : ℚ) (store : Store) :
    ∀ r ∈ (try_phase today draws input tr er store).chosen, protected_numeric r ≠ 1 :=
  (try_phase_good today draws input tr er store).2.2.2

/-- Witness for C2 at a concrete selected record. -/
theorem protected_never_selected_witness :
    sampleRow ∈ (try_phase today0 draws0 [sampleRow] 1 1 Store.empty).chosen ∧
    protected_numeric sampleRow ≠ 1 := by
  have h : derived_probability 1 1 = 1 := by norm_num [derived_probability, clamp01]
  have hm : sampleRow ∈ (try_phase today0 draws0 [sampleRow] 1 1 Store.empty).chosen := by
    simp only [try_phase, h]
    decide
  exact ⟨hm, protected_never_selected today0 draws0 [sampleRow] 1 1 Store.empty sampleRow hm⟩

/-- C3: every invocation with a working attempt log writes exactly one new
Attempt record, whatever the outcome; a validation (or empty-input, or ratio)
failure is recovered into that single ERROR-status Attempt rather than skipping
the log. -/
theorem attempt_always_logged (today : Date) (draws : Nat → ℚ) (persistOk updateOk : Bool)
    (persistErr : String) (input : List Row) (batch_id : String) (tr er : ℚ) (store : Store) :
    ∃ a : Attempt,
      (run_selection today draws true persistOk updateOk persistErr input batch_id tr er
        store).store.selection_log = store.selection_log ++ [a] ∧
      ((try_phase today draws input tr er store).status = Status.ERROR →
        a = logged_attempt (try_phase today draws input tr er store) batch_id er) := by
  by_cases hg : (try_phase today draws input tr er store).status = Status.SUCCESS ∧
      0 < (try_phase today draws input tr er store).nSelected
  · have hvac : (try_phase today draws input tr er store).status = Status.ERROR →
        logged_attempt (try_phase today draws input tr er store) batch_id er =
          logged_attempt (try_phase today draws input tr er store) batch_id er := fun _ => rfl
    have hvac2 : ∀ b : Attempt, (try_phase today draws input tr er store).status =
        Status.ERROR → b = logged_attempt (try_phase today draws input tr er store)
          batch_id er := by
      intro b hE
      rw [hg.1] at hE
      exact absurd hE (by simp)
    by_cases hc : (try_phase today draws input tr er store).chosen.isEmpty
    · refine ⟨logged_attempt (try_phase today draws input tr er store) batch_id er, ?_,
        hvac2 _⟩
      rw [run_selection_saveEmpty today draws persistOk updateOk persistErr input batch_id
        tr er store hg hc]
    · cases persistOk
      · cases updateOk
        · refine ⟨logged_attempt (try_phase today draws input tr er store) batch_id er, ?_,
            hvac2 _⟩
          rw [run_selection_saveFail_noUpdate today draws persistErr input batch_id tr er
            store hg hc]
        · refine ⟨{ logged_attempt (try_phase today draws input tr er store) batch_id er with
            status := Status.ERROR, message := persist_fail_message persistErr }, ?_,
            hvac2 _⟩
          rw [run_selection_saveFail_update today draws persistErr input batch_id tr er
            store hg hc]
      · refine ⟨logged_attempt (try_phase today draws input tr er store) batch_id er, ?_,
          hvac2 _⟩
        rw [run_selection_saveOk today draws updateOk persistErr input batch_id tr er
          store hg]
  · refine ⟨logged_attempt (try_phase today draws input tr er store) batch_id er, ?_,
      fun _ => rfl⟩
    rw [run_selection_noSave today draws persistOk updateOk persistErr input batch_id tr er
      store hg]

/-- Witness for C3 at a concrete invocation. -/
theorem attempt_always_logged_witness :
    ∃ a : Attempt,
      (run_selection today0 draws0 true true true "e" [] "b1" 1 1
        Store.empty).store.selection_log = Store.empty.selection_log ++ [a] ∧
      ((try_phase today0 draws0 [] 1 1 Store.empty).status = Status.ERROR →
        a = logged_attempt (try_phase today0 draws0 [] 1 1 Store.empty) "b1" 1) :=
  attempt_always_logged today0 draws0 true true "e" [] "b1" 1 1 Store.empty

/-- C4: for every target rate and eligible fraction in (0, 1], the derived
probability is the raw quotient, except a quotient above 1.0 is clamped to 1.0
and a negative quotient is clamped to 0.0; the result always lies in [0, 1]. -/
theorem derived_probability_spec (tr er : ℚ) (h1 : 0 < er) (h2 : er ≤ 1) :
    (1 < tr / er → derived_probability tr er = 1) ∧
    (tr / er < 0 → derived_probability tr er = 0) ∧
    (0 ≤ tr / er → tr / er ≤ 1 → derived_probability tr er = tr / er) ∧
    0 ≤ derived_probability tr er ∧ derived_probability tr er ≤ 1 := by
  refine ⟨?_, ?_, ?_, (clamp01_mem _).1, (clamp01_mem _).2⟩
  · intro h
    unfold derived_probability clamp01
    rw [if_pos h]
  · intro h
    unfold derived_probability clamp01
    rw [if_neg (by linarith), if_pos h]
  · intro h0 hle
    unfold derived_probability clamp01
    rw [if_neg (by linarith), if_neg (by linarith)]

/-- Witness for C4 at a concrete rate pair. -/
theorem derived_probability_spec_witness :
    ((0:ℚ) < 1 ∧ (1:ℚ) ≤ 1) ∧
      (0 ≤ derived_probability 2 1 ∧ derived_probability 2 1 ≤ 1) :=
  ⟨⟨by decide, by decide⟩, (derived_probability_spec 2 1 (by decide) (by decide)).2.2.2⟩

/-- C5: the derived probability is non-decreasing in the target rate at a fixed
eligible fraction, non-increasing in the eligible fraction at a fixed target
rate within (0, 1], and always lies in [0, 1]. -/
theorem derived_probability_monotone (r r₁ r₂ f f₁ f₂ : ℚ)
    (hf : 0 < f) (hr : r₁ ≤ r₂) (hf₁ : 0 < f₁) (hf₁₂ : f₁ ≤ f₂) (hf₂ : f₂ ≤ 1) :
    derived_probability r₁ f ≤ derived_probability r₂ f ∧
    derived_probability r f₂ ≤ derived_probability r f₁ ∧
    0 ≤ derived_probability r f ∧ derived_probability r f ≤ 1 := by
  refine ⟨?_, ?_, (clamp01_mem _).1, (clamp01_mem _).2⟩
  · exact clamp01_mono ((div_le_div_right hf).mpr hr)
  · rcases le_or_lt 0 r with h0 | h0
    · exact clamp01_mono (div_le_div_of_nonneg_left h0 hf₁ hf₁₂)
    · unfold derived_probability
      rw [clamp01_of_neg (div_neg_of_neg_of_pos h0 hf₁),
        clamp01_of_neg (div_neg_of_neg_of_pos h0 (lt_of_lt_of_le hf₁ hf₁₂))]

/-- Witness for C5 at concrete rates. -/
theorem derived_probability_monotone_witness :
    ((0:ℚ) < 1 ∧ (1:ℚ) ≤ 2 ∧ (0:ℚ) < 1 ∧ (1:ℚ) ≤ 1) ∧
      derived_probability 1 1 ≤ derived_probability 2 1 :=
  ⟨⟨by decide, by decide, by decide, by decide⟩,
    (derived_probability_monotone 1 1 2 1 1 1 (by decide) (by decide) (by decide) (by decide)
      (by decide)).1⟩

/-- C6: when the persistence step fails after a SUCCESS attempt was logged, the
just-written Attempt row is mutated exactly once, its status flipping SUCCESS
to ERROR and its message replaced with the persistence failure detail, while no
selected rows are applied; and for every flag combination, the pre-existing
rows of both tables are preserved as a prefix, so every other persisted change
is an append. -/
theorem persist_failure_sole_mutation (today : Date) (draws : Nat → ℚ) (persistErr : String)
    (input : List Row) (batch_id : String) (tr er : ℚ) (store : Store)
    (hs : (try_phase today draws input tr er store).status = Status.SUCCESS)
    (hn : 0 < (try_phase today draws input tr er store).nSelected) :
    (run_selection today draws true false true persistErr input batch_id tr er store).store =
      ⟨store.selection_log ++
          [{ logged_attempt (try_phase today draws input tr er store) batch_id er with
              status := Status.ERROR, message := persist_fail_message persistErr }],
        store.selected_applications⟩ ∧
    ∀ lOk pOk uOk : Bool,
      store.selection_log <+:
        (run_selection today draws lOk pOk uOk persistErr input batch_id tr er
          store).store.selection_log ∧
      store.selected_applications <+:
        (run_selection today draws lOk pOk uOk persistErr input batch_id tr er
          store).store.selected_applications := by
  have hg : (try_phase today draws input tr er store).status = Status.SUCCESS ∧
      0 < (try_phase today draws input tr er store).nSelected := ⟨hs, hn⟩
  have hc : ¬ (try_phase today draws input tr er store).chosen.isEmpty := by
    have hlen := (try_phase_good today draws input tr er store).2.2.1
    intro hemp
    rw [List.isEmpty_iff.mp hemp] at hlen
    simp only [List.length_nil] at hlen
    omega
  constructor
  · rw [run_selection_saveFail_update today draws persistErr input batch_id tr er store hg hc]
  · intro lOk pOk uOk
    cases lOk
    · rw [run_selection_logFail]
      exact ⟨List.prefix_rfl, List.prefix_rfl⟩
    · cases pOk
      · cases uOk
        · rw [run_selection_saveFail_noUpdate today draws persistErr input batch_id tr er
            store hg hc]
          exact ⟨List.prefix_append _ _, List.prefix_rfl⟩
        · rw [run_selection_saveFail_update today draws persistErr input batch_id tr er
            store hg hc]
          exact ⟨List.prefix_append _ _, List.prefix_rfl⟩
      · rw [run_selection_saveOk today draws uOk persistErr input batch_id tr er store hg]
        exact ⟨List.prefix_append _ _, List.prefix_append _ _⟩

/-- Witness for C6 at a concrete failing persistence. -/
theorem persist_failure_sole_mutation_witness :
    (try_phase today0 draws0 [sampleRow] 1 1 Store.empty).status = Status.SUCCESS ∧
    0 < (try_phase today0 draws0 [sampleRow] 1 1 Store.empty).nSelected ∧
    (run_selection today0 draws0 true false true "boom" [sampleRow] "b1" 1 1
        Store.empty).store =
      ⟨Store.empty.selection_log ++
          [{ logged_attempt (try_phase today0 draws0 [sampleRow] 1 1 Store.empty) "b1" 1 with
              status := Status.ERROR, message := persist_fail_message "boom" }],
        Store.empty.selected_applications⟩ := by
  have h : derived_probability 1 1 = 1 := by norm_num [derived_probability, clamp01]
  have hs : (try_phase today0 draws0 [sampleRow] 1 1 Store.empty).status = Status.SUCCESS := by
    simp only [try_phase, h]
    decide
  have hn : 0 < (try_phase today0 draws0 [sampleRow] 1 1 Store.empty).nSelected := by
    simp only [try_phase, h]
    decide
  exact ⟨hs, hn, (persist_failure_sole_mutation today0 draws0 "boom" [sampleRow] "b1" 1 1
    Store.empty hs hn).1⟩

/-- C8, code behavior at the failing input: a protected_class token outside the
flag_map lookup is silently normalized to 0 by fillna(0), the isin([0, 1])
check never fires, the batch passes validation, and the record flows on into
selection as an unprotected record. -/
theorem unknown_protected_token_not_reported :
    validation_errors today0 [strip_row badTokenRow] = [] ∧
    protected_numeric badTokenRow = 0 ∧
    (try_phase today0 draws0 [badTokenRow] 1 1 Store.empty).status = Status.SUCCESS ∧
    (try_phase today0 draws0 [badTokenRow] 1 1 Store.empty).chosen ≠ [] := by
  have h : derived_probability 1 1 = 1 := by norm_num [derived_probability, clamp01]
  refine ⟨by decide, by decide, ?_, ?_⟩
  · simp only [try_phase, h]
    decide
  · simp only [try_phase, h]
    decide

/-- C9: a failing durable write inside the attempt logger leaves no Attempt
record for the run and the store untouched, and the run returns false, the sole
failure mode reported through the return value; every run whose attempt write
succeeds returns true. -/
theorem logger_failure_sole_unmasked (today : Date) (draws : Nat → ℚ)
    (persistOk updateOk : Bool) (persistErr : String) (input : List Row) (batch_id : String)
    (tr er : ℚ) (store : Store) :
    run_selection today draws false persistOk updateOk persistErr input batch_id tr er store =
      ⟨store, false⟩ ∧
    (run_selection today draws true persistOk updateOk persistErr input batch_id tr er
      store).returned = true :=
  ⟨run_selection_logFail today draws persistOk updateOk persistErr input batch_id tr er store,
    run_selection_returned_eq today draws true persistOk updateOk persistErr input batch_id
      tr er store⟩

/-- C10: an empty input batch is rejected as an error, not treated as a
successful zero-selection run: nothing is selected and the run logs one ERROR
Attempt with pool_size 0 and the non-empty-DataFrame message. -/
theorem empty_input_rejected (today : Date) (draws : Nat → ℚ) (persistOk updateOk : Bool)
    (persistErr batch_id : String) (tr er : ℚ) (store : Store) :
    (run_selection today draws true persistOk updateOk persistErr [] batch_id tr er
      store).store =
      ⟨store.selection_log ++
          [{ batch_id := batch_id, status := Status.ERROR,
             message := "Input data must be a non-empty pandas DataFrame.",
             selected_count := 0, total_in_pool := 0, frame_used := er }],
        store.selected_applications⟩ := by
  have hout := try_phase_empty today draws [] tr er store rfl
  have hg : ¬ ((try_phase today draws [] tr er store).status = Status.SUCCESS ∧
      0 < (try_phase today draws [] tr er store).nSelected) := by
    rw [hout]
    simp
  rw [run_selection_noSave today draws persistOk updateOk persistErr [] batch_id tr er
    store hg, hout]
  rfl

/-- C7: every check runs over the whole batch before any failure: each check
contributes its finding independently of the others, all findings are
concatenated, and a failing batch raises the one aggregated error carrying
every finding, never just the first. -/
theorem validation_aggregation (today : Date) (rows : List Row) :
    (empty_id_errors rows ≠ [] ↔ ∃ r ∈ rows, r.id = "") ∧
    (duplicate_id_errors rows ≠ [] ↔ ¬ (rows.map Row.id).Nodup) ∧
    (unparseable_date_errors rows ≠ [] ↔ ∃ r ∈ rows, unparseable_date r = true) ∧
    (future_date_errors today rows ≠ [] ↔ ∃ r ∈ rows, future_date today r = true) ∧
    (min_date_errors rows ≠ [] ↔ ∃ r ∈ rows, before_min_date r = true) ∧
    (∀ m, (m ∈ empty_id_errors rows ∨ m ∈ duplicate_id_errors rows ∨
        m ∈ unparseable_date_errors rows ∨ m ∈ future_date_errors today rows ∨
        m ∈ min_date_errors rows) → m ∈ validation_errors today rows) ∧
    (∀ (draws : Nat → ℚ) (input : List Row) (tr er : ℚ) (store : Store),
      input.map strip_row = rows → ¬ input.isEmpty → (0 < er ∧ er ≤ 1) →
      validation_errors today rows ≠ [] →
      (try_phase today draws input tr er store).status = Status.ERROR ∧
      (try_phase today draws input tr er store).message =
        aggregate_error (validation_errors today rows)) := by
  refine ⟨?_, ?_, ?_, ?_, ?_, ?_, ?_⟩
  · unfold empty_id_errors
    split_ifs with h
    · simp only [List.any_eq_true, beq_iff_eq] at h
      simpa using h
    · simp only [List.any_eq_true, beq_iff_eq] at h
      simpa using h
  · unfold duplicate_id_errors
    split_ifs with h
    · rw [List.isEmpty_iff] at h
      have hnd := ((duplicated_ids_aux_eq_nil (rows.map Row.id) []).mp h).1
      simp [hnd]
    · rw [List.isEmpty_iff] at h
      have hnd : ¬ (rows.map Row.id).Nodup := by
        intro hn
        exact h ((duplicated_ids_aux_eq_nil (rows.map Row.id) []).mpr ⟨hn, by simp⟩)
      simpa using hnd
  · unfold unparseable_date_errors
    split_ifs with h
    · have hpos : rows.filter unparseable_date ≠ [] := by
        intro e
        rw [e] at h
        simp at h
      have hex : ∃ r, r ∈ rows.filter unparseable_date := by
        cases e : rows.filter unparseable_date with
        | nil => exact absurd e hpos
        | cons a t => exact ⟨a, e ▸ List.mem_cons_self a t⟩
      obtain ⟨r, hr⟩ := hex
      have hm := List.mem_filter.mp hr
      have : ∃ r ∈ rows, unparseable_date r = true := ⟨r, hm.1, hm.2⟩
      simpa using this
    · have h0 : rows.filter unparseable_date = [] := by
        cases e : rows.filter unparseable_date with
        | nil => rfl
        | cons a t =>
          exfalso
          apply h
          rw [e]
          simp
      have hall := List.filter_eq_nil.mp h0
      have : ¬ ∃ r ∈ rows, unparseable_date r = true := by
        rintro ⟨r, hr, hu⟩
        exact hall r hr hu
      simpa using this
  · unfold future_date_errors
    split_ifs with h
    · simp only [List.any_eq_true] at h
      simpa using h
    · simp only [List.any_eq_true] at h
      simpa using h
  · unfold min_date_errors
    split_ifs with h
    · simp only [List.any_eq_true] at h
      simpa using h
    · simp only [List.any_eq_true] at h
      simpa using h
  · intro m hm
    simp only [validation_errors, List.mem_append]
    tauto
  · intro draws input tr er store hmap hne hr hv
    subst hmap
    rw [try_phase_invalid today draws input tr er store hne hr hv]
    exact ⟨rfl, rfl⟩

/-- Witness for C7 at a batch with three independent violations. -/
theorem validation_aggregation_witness :
    (vBatch.map strip_row = vBatch ∧ ¬ (vBatch : List Row).isEmpty ∧
      (0 < (1:ℚ) ∧ (1:ℚ) ≤ 1) ∧ validation_errors today0 vBatch ≠ []) ∧
    (try_phase today0 draws0 vBatch 1 1 Store.empty).status = Status.ERROR := by
  have h1 : vBatch.map strip_row = vBatch := by decide
  have h2 : ¬ (vBatch : List Row).isEmpty := by decide
  have h3 : (0 < (1:ℚ) ∧ (1:ℚ) ≤ 1) := by decide
  have h4 : validation_errors today0 vBatch ≠ [] := by decide
  exact ⟨⟨h1, h2, h3, h4⟩,
    ((validation_aggregation today0 vBatch).2.2.2.2.2.2 draws0 vBatch 1 1 Store.empty
      h1 h2 h3 h4).1⟩

end SamplerLogic
